import Mathlib

/-!
Verification development for the RVM reconciler (src/rvm/rvm.py).

The Python module is embedded shallowly: file reads, STS role assumption
and CloudFormation calls are modelled as explicit per-account oracles in
an `Env` record, and each CloudFormation submission is recorded as an
`Event` so that temporal claims about the run can be stated over the
event trace.  Logging is not modelled.  Python sets and dicts are
modelled as insertion-ordered duplicate-free lists; since the claims
under study are insensitive to set iteration order, one fixed
linearisation is used.
-/

namespace Rvm

/-- Embeds the module constant STACK_PREFIX = "rvm-provisioned" (rvm.py:9). -/
def stackPfx : String := "rvm-provisioned"

/-- Ordered-set insertion used to model Python set/dict-key insertion:
keeps the first occurrence, appends a fresh element at the end. -/
def insertNew (x : String) (xs : List String) : List String :=
  if x ∈ xs then xs else xs ++ [x]

/-- Embeds os.path.join(dir, f) for the posix paths used by the module
(rvm.py:175, 228, 148): absolute second component wins. -/
def joinPath (d f : String) : String :=
  match f.data with
  | '/' :: _ => f
  | _ => d ++ "/" ++ f

/-- Embeds os.path.basename for posix paths: the part after the last "/". -/
def basename (p : String) : String :=
  String.mk (p.data.foldl (fun acc c => if c = '/' then [] else acc ++ [c]) [])

/-- Index of the last '.' in a character list, if any. -/
def lastDotIdx (cs : List Char) : Option Nat :=
  ((List.range cs.length).filter (fun i => cs.getD i ' ' = '.')).getLast?

/-- Embeds os.path.splitext(name)[0] for a name with no '/': splits at the
last '.' unless every character before it is itself a '.' (so ".bashrc"
keeps its dot, matching CPython genericpath._splitext). -/
def splitextRoot (s : String) : String :=
  let cs := s.toList
  match lastDotIdx cs with
  | none => s
  | some i => if (cs.take i).all (fun c => c = '.') then s else String.mk (cs.take i)

/-- Embeds _generate_stack_name (rvm.py:141-144):
STACK_PREFIX + "-" + splitext(basename(template_file))[0]. -/
def generate_stack_name (template_file : String) : String :=
  stackPfx ++ "-" ++ splitextRoot (basename template_file)

/-- The per-account stack name recorded in the expected stack sets
(rvm.py:188, 193): generated name plus "-" plus the account id. -/
def stackNameFor (template_file account_id : String) : String :=
  generate_stack_name template_file ++ "-" ++ account_id

/-- One element of the manifest's templates list (rvm.py:162-164):
template_file may be absent, accounts defaults to the empty list. -/
structure TemplateConfig where
  template_file : Option String
  accounts : List String
deriving DecidableEq

/-- Outcome of _read_manifest plus the "templates" presence check
(rvm.py:33-36, 151-155): parsing may raise, the key may be absent, or a
list of template configurations is available. -/
inductive ManifestDoc where
  | parseError
  | noTemplates
  | withTemplates (templates : List TemplateConfig)
deriving DecidableEq

/-- Per-account view of the external world: whether _assume_role succeeds
for this account, the stack summaries the list_stacks paginator yields
before any failure, whether the paginator then raises (caught at
rvm.py:76-78), and whether delete/create/update submissions for a given
stack name succeed. -/
structure AccountState where
  assumeRoleOk : Bool
  listedStacks : List (String × String)
  listFails : Bool
  deleteOk : String → Bool
  createOk : String → Bool
  updateOk : String → Bool

/-- The whole external world a run of deploy_all observes: the parsed
manifest, readability and contents of template files in the extracted
directory, and each account's state. -/
structure Env where
  manifest : ManifestDoc
  readable : String → Bool
  content : String → String
  acct : String → AccountState

/-- A control-plane interaction recorded by the run.  deleteSettled
covers delete_stack's submit-then-wait (rvm.py:87-92): by the time the
event exists the deletion has reached a terminal outcome ok/failed.
createSubmitted/updateSubmitted record an accepted-or-raised submission
(rvm.py:119-123, 131-135); the run does not wait on them. -/
inductive Event where
  | deleteSettled (account stack : String) (ok : Bool)
  | createSubmitted (account stack : String) (ok : Bool)
  | updateSubmitted (account stack : String) (ok : Bool)
deriving DecidableEq

/-- True exactly on deleteSettled events. -/
def Event.isDelete : Event → Bool
  | .deleteSettled _ _ _ => true
  | _ => false

/-- The account an event acts in. -/
def Event.account : Event → String
  | .deleteSettled a _ _ => a
  | .createSubmitted a _ _ => a
  | .updateSubmitted a _ _ => a

/-- Embeds _get_existing_stacks (rvm.py:63-79): collect the names with
the system's prefix from the summaries the paginator yields; a paginator
failure is only logged, so whatever was accumulated is returned and the
listFails flag plays no role in the value. -/
def getExistingStacks (st : AccountState) : List String :=
  (st.listedStacks.filter (fun p => stackPfx.data.isPrefixOf p.1.data)).foldl
    (fun acc p => insertNew p.1 acc) []

/-- Embeds _delete_stack (rvm.py:82-102): submit the deletion, wait for
terminal status, return whether it succeeded; every exception is caught
and reported as a False return. -/
def delete_stack (st : AccountState) (stack_name account_id : String) :
    Event × Bool :=
  (.deleteSettled account_id stack_name (st.deleteOk stack_name),
   st.deleteOk stack_name)

/-- Embeds _deploy_stack (rvm.py:105-138): update when the name is in the
tracked existing stacks, otherwise create; a raising submission becomes
an error, and every non-raising path returns true. -/
def deploy_stack (st : AccountState) (_template_content stack_name account_id : String)
    (existing_stacks : List String) : Event × Except String Bool :=
  if stack_name ∈ existing_stacks then
    if st.updateOk stack_name then
      (.updateSubmitted account_id stack_name true, .ok true)
    else
      (.updateSubmitted account_id stack_name false, .error "update_stack raised")
  else
    if st.createOk stack_name then
      (.createSubmitted account_id stack_name true, .ok true)
    else
      (.createSubmitted account_id stack_name false, .error "create_stack raised")

/-- Accumulator of the first pass over the manifest (rvm.py:157-193):
failures recorded so far, the ordered set of all referenced accounts,
and the per-account expected stack sets (account_stacks). -/
structure CollectState where
  failed : List String
  all_accounts : List String
  account_stacks : List (String × List String)
deriving DecidableEq

/-- Association-list lookup with the empty default, modelling
dict.get(key, empty-set) (rvm.py:204, 240). -/
def lookupD (m : List (String × List String)) (k : String) : List String :=
  match m.find? (fun p => p.1 = k) with
  | some p => p.2
  | none => []

/-- Insert a stack name into one account's set inside the association
list, modelling account_stacks bookkeeping (rvm.py:190-193). -/
def addAccountStack (m : List (String × List String)) (a n : String) :
    List (String × List String) :=
  if m.any (fun p => p.1 = a) then
    m.map (fun p => if p.1 = a then (p.1, insertNew n p.2) else p)
  else m ++ [(a, [n])]

/-- One iteration of the first manifest pass (rvm.py:162-193): skip
entries without template_file or accounts; an unreadable template file
extends failed with the bare account ids and contributes nothing else;
otherwise record the accounts and their expected per-account names. -/
def collectStep (dir : String) (readable : String → Bool)
    (s : CollectState) (tc : TemplateConfig) : CollectState :=
  match tc.template_file with
  | none => s
  | some f =>
    if tc.accounts.isEmpty then s
    else if readable (joinPath dir f) then
      let sn := generate_stack_name f
      let s1 := { s with
        all_accounts := tc.accounts.foldl (fun acc a => insertNew a acc) s.all_accounts }
      tc.accounts.foldl
        (fun st a =>
          { st with account_stacks := addAccountStack st.account_stacks a (sn ++ "-" ++ a) })
        s1
    else
      { s with failed := s.failed ++ tc.accounts }

/-- The whole first pass over manifest["templates"] (rvm.py:157-193). -/
def collectPhase (dir : String) (readable : String → Bool)
    (ts : List TemplateConfig) : CollectState :=
  ts.foldl (collectStep dir readable) { failed := [], all_accounts := [], account_stacks := [] }

/-- Accumulator of the deletion pass (rvm.py:195-215): deleted-result
strings, the event trace, and the cached per-account existing stacks. -/
structure DeleteOut where
  deleted : List String
  events : List Event
  existingByAccount : List (String × List String)
deriving DecidableEq

/-- Deletion of one orphaned stack (rvm.py:208-210): run delete_stack,
record the event, and append to deleted only on success. -/
def deleteOrphanStep (st : AccountState) (a : String) (o2 : DeleteOut) (n : String) :
    DeleteOut :=
  let r := delete_stack st n a
  { o2 with
    events := o2.events ++ [r.1],
    deleted := if r.2 then o2.deleted ++ [n ++ ":" ++ a] else o2.deleted }

/-- Deletion pass for one account (rvm.py:197-215): a failed role
assumption is caught and skips the account entirely; otherwise the
existing stacks are cached, orphans (existing minus expected) are
computed and each is deleted in turn. -/
def deleteForAccount (acctOf : String → AccountState) (cs : CollectState)
    (o : DeleteOut) (a : String) : DeleteOut :=
  let st := acctOf a
  if st.assumeRoleOk then
    let existing := getExistingStacks st
    let expected := lookupD cs.account_stacks a
    let orphans := existing.filter (fun n => ¬ n ∈ expected)
    let o1 := { o with existingByAccount := o.existingByAccount ++ [(a, existing)] }
    orphans.foldl (deleteOrphanStep st a) o1
  else o

/-- The whole deletion pass over all referenced accounts (rvm.py:195-215). -/
def deletePhase (acctOf : String → AccountState) (cs : CollectState) : DeleteOut :=
  cs.all_accounts.foldl (deleteForAccount acctOf cs)
    { deleted := [], events := [], existingByAccount := [] }

/-- Accumulator of the deploy pass (rvm.py:217-253). -/
structure DeployOut where
  success : List String
  failed : List String
  events : List Event
deriving DecidableEq

/-- Deploy attempt for one (template, account) pair (rvm.py:237-253): a
failed role assumption is caught and recorded as failed; otherwise
deploy_stack runs against the cached snapshot, a true return is a
success, and both the unreachable false return and a raised exception
are recorded as failed. -/
def deployAccountStep (env : Env) (existingBy : List (String × List String))
    (f content sn : String) (o : DeployOut) (a : String) : DeployOut :=
  let st := env.acct a
  if st.assumeRoleOk then
    let existing := lookupD existingBy a
    let r := deploy_stack st content sn a existing
    match r.2 with
    | .ok true => { o with events := o.events ++ [r.1], success := o.success ++ [f ++ ":" ++ a] }
    | .ok false => { o with events := o.events ++ [r.1], failed := o.failed ++ [f ++ ":" ++ a] }
    | .error _ => { o with events := o.events ++ [r.1], failed := o.failed ++ [f ++ ":" ++ a] }
  else
    { o with failed := o.failed ++ [f ++ ":" ++ a] }

/-- Deploy pass for one manifest entry (rvm.py:218-253): the same
skip/readability checks as the first pass, except that an unreadable
template is now silently skipped (continue with no failed append). -/
def deployTemplate (dir : String) (env : Env) (existingBy : List (String × List String))
    (o : DeployOut) (tc : TemplateConfig) : DeployOut :=
  match tc.template_file with
  | none => o
  | some f =>
    if tc.accounts.isEmpty then o
    else if env.readable (joinPath dir f) then
      let sn := generate_stack_name f
      tc.accounts.foldl
        (deployAccountStep env existingBy f (env.content (joinPath dir f)) sn) o
    else o

/-- The whole deploy pass over manifest["templates"] (rvm.py:217-253). -/
def deployPhase (dir : String) (env : Env) (existingBy : List (String × List String))
    (ts : List TemplateConfig) : DeployOut :=
  ts.foldl (deployTemplate dir env existingBy) { success := [], failed := [], events := [] }

/-- The run report (rvm.py:149): success, failed and deleted lists in
insertion order. -/
structure RunResults where
  success : List String
  failed : List String
  deleted : List String
deriving DecidableEq

/-- The empty report returned for a templates-free manifest. -/
def emptyResults : RunResults := { success := [], failed := [], deleted := [] }

/-- Embeds deploy_all (rvm.py:147-266).  A manifest that cannot be parsed
makes _read_manifest raise, which propagates (error); an absent
"templates" key returns the empty report; otherwise the first pass, the
deletion pass and the deploy pass run in that order and their outputs
are assembled, together with the event trace of the run. -/
def deploy_all (extracted_dir : String) (env : Env) :
    Except String (RunResults × List Event) :=
  match env.manifest with
  | .parseError => .error "failed to read manifest.json"
  | .noTemplates => .ok (emptyResults, [])
  | .withTemplates ts =>
    let cs := collectPhase extracted_dir env.readable ts
    let del := deletePhase env.acct cs
    let dep := deployPhase extracted_dir env del.existingByAccount ts
    .ok ({ success := dep.success, failed := cs.failed ++ dep.failed, deleted := del.deleted },
         del.events ++ dep.events)

/-- Effect of one recorded event on one account's control-plane stack
list, assuming the control plane applies exactly the requested
operations: a settled successful deletion removes the stack, an accepted
creation adds it in CREATE_COMPLETE, an accepted update leaves it
present in UPDATE_COMPLETE.  Events of other accounts change nothing. -/
def applyEvent (a : String) (stks : List (String × String)) : Event → List (String × String)
  | .deleteSettled a2 n ok =>
    if a2 = a ∧ ok = true then stks.filter (fun p => ¬ p.1 = n) else stks
  | .createSubmitted a2 n ok =>
    if a2 = a ∧ ok = true then stks ++ [(n, "CREATE_COMPLETE")] else stks
  | .updateSubmitted a2 n ok =>
    if a2 = a ∧ ok = true then stks.map (fun p => if p.1 = n then (p.1, "UPDATE_COMPLETE") else p) else stks

/-- The world after a run whose trace was evs, with no external change in
between: every account's stack list absorbs the run's operations. -/
def applyRun (env : Env) (evs : List Event) : Env :=
  { env with acct := fun a =>
      { env.acct a with listedStacks := evs.foldl (applyEvent a) (env.acct a).listedStacks } }

/-- Reconciler set arithmetic, delete side: orphaned stacks are the
observed ones no longer expected (rvm.py:205). -/
def toDelete (expected observed : Finset String) : Finset String := observed \ expected

/-- Reconciler set arithmetic, create side: expected stacks absent from
the observed snapshot take the create branch of _deploy_stack
(rvm.py:127-138). -/
def toCreate (expected observed : Finset String) : Finset String := expected \ observed

/-- Reconciler set arithmetic, update side: expected stacks present in
the observed snapshot take the update branch of _deploy_stack
(rvm.py:114-126). -/
def toUpdate (expected observed : Finset String) : Finset String := expected ∩ observed

/-- Manifest with a single entry: net.yaml targeting account 111. -/
def netManifest : ManifestDoc :=
  .withTemplates [{ template_file := some "net.yaml", accounts := ["111"] }]

/-- An account with no existing stacks where every remote call succeeds. -/
def freshAcct : AccountState :=
  { assumeRoleOk := true, listedStacks := [], listFails := false,
    deleteOk := fun _ => true, createOk := fun _ => true, updateOk := fun _ => true }

/-- World: netManifest, every template readable, every account fresh. -/
def envFresh : Env :=
  { manifest := netManifest, readable := fun _ => true,
    content := fun _ => "template body", acct := fun _ => freshAcct }

/-- The world envFresh leads to after its own run is applied: account 111
now holds the stack the run created. -/
def envSecond : Env :=
  applyRun envFresh [.createSubmitted "111" "rvm-provisioned-net" true]

/-- World like envFresh except that listing the stacks of every account
fails before yielding anything (the paginator raises immediately). -/
def envQueryFail : Env :=
  { manifest := netManifest, readable := fun _ => true,
    content := fun _ => "template body",
    acct := fun _ => { freshAcct with listFails := true } }

/-- World whose manifest has two entries, the first referencing a
template file missing from the bundle. -/
def envMissing : Env :=
  { manifest := .withTemplates
      [{ template_file := some "missing.yaml", accounts := ["111", "222"] },
       { template_file := some "net.yaml", accounts := ["333"] }],
    readable := fun p => !(decide (p = "d/missing.yaml")),
    content := fun _ => "template body", acct := fun _ => freshAcct }

/-- World whose manifest file cannot be parsed at all. -/
def envBadManifest : Env :=
  { manifest := .parseError, readable := fun _ => true,
    content := fun _ => "template body", acct := fun _ => freshAcct }

/-- World whose manifest parses but has no "templates" key. -/
def envNoTemplates : Env :=
  { manifest := .noTemplates, readable := fun _ => true,
    content := fun _ => "template body", acct := fun _ => freshAcct }

/-- One element of event["Records"]: the S3 bucket and object key. -/
structure S3Record where
  bucket : String
  key : String
deriving DecidableEq

/-- The inbound lambda event: event["Records"] may be absent (KeyError)
or present as a list (possibly empty, giving IndexError at [0]). -/
structure LambdaEvent where
  records : Option (List S3Record)
deriving DecidableEq

/-- The JSON body of the handler response: either the error string or
the three result lists of a completed run (rvm.py:287-301). -/
inductive RespBody where
  | errorMsg (msg : String)
  | report (success failed deleted : List String)
deriving DecidableEq

/-- The handler's return value: statusCode plus body. -/
structure LambdaResponse where
  statusCode : Nat
  body : RespBody
deriving DecidableEq

/-- External collaborators of lambda_handler: downloading and extracting
the zip for a (bucket, key) pair, which may raise, and the world found
in the extracted directory. -/
structure HandlerCtx where
  fetch : String → String → Except String String
  envOf : String → Env

/-- Embeds lambda_handler (rvm.py:269-301): index event["Records"][0],
with KeyError/IndexError caught by the blanket handler and turned into a
500 response; then download, extract, reconcile, and wrap the result. -/
def lambda_handler (ctx : HandlerCtx) (event : LambdaEvent) : LambdaResponse :=
  match event.records with
  | none => { statusCode := 500, body := .errorMsg "KeyError: Records" }
  | some [] => { statusCode := 500, body := .errorMsg "IndexError: list index out of range" }
  | some (r :: _) =>
    match ctx.fetch r.bucket r.key with
    | .error e => { statusCode := 500, body := .errorMsg e }
    | .ok dir =>
      match deploy_all dir (ctx.envOf dir) with
      | .error e => { statusCode := 500, body := .errorMsg e }
      | .ok (res, _) =>
        { statusCode := 200, body := .report res.success res.failed res.deleted }

/-!
Helper lemmas shared by the claim theorems.
-/

/-- Fold preservation of an invariant. -/
theorem foldl_inv {α β : Type} (P : α → Prop) (f : α → β → α)
    (hf : ∀ x y, P x → P (f x y)) :
    ∀ (l : List β) (x : α), P x → P (l.foldl f x) := by
  intro l
  induction l with
  | nil => exact fun x h => h
  | cons y l ih => exact fun x h => ih (f x y) (hf x y h)

/-- Every event emitted by the deletion pass for one account is a
settled deletion. -/
theorem deleteForAccount_events (acctOf : String → AccountState) (cs : CollectState)
    (o : DeleteOut) (a : String)
    (h : ∀ e ∈ o.events, e.isDelete = true) :
    ∀ e ∈ (deleteForAccount acctOf cs o a).events, e.isDelete = true := by
  simp only [deleteForAccount]
  split
  · refine foldl_inv (fun o2 => ∀ e ∈ o2.events, e.isDelete = true)
      (deleteOrphanStep (acctOf a) a) ?_ _
      { deleted := o.deleted, events := o.events,
        existingByAccount := o.existingByAccount ++ [(a, getExistingStacks (acctOf a))] }
      ?_
    · intro o2 n h2 e he
      simp only [deleteOrphanStep, delete_stack, List.mem_append,
        List.mem_singleton] at he
      rcases he with h3 | h3
      · exact h2 e h3
      · rw [h3]; rfl
    · exact fun e he => h e he
  · exact h

/-- Every event in the deletion pass's trace is a settled deletion. -/
theorem deletePhase_events (acctOf : String → AccountState) (cs : CollectState) :
    ∀ e ∈ (deletePhase acctOf cs).events, e.isDelete = true := by
  unfold deletePhase
  refine foldl_inv (fun o => ∀ e ∈ o.events, e.isDelete = true) _
    (fun o a h => deleteForAccount_events acctOf cs o a h) cs.all_accounts
    { deleted := [], events := [], existingByAccount := [] } ?_
  intro e he
  exact absurd he (List.not_mem_nil e)

/-- A deploy submission event is never a deletion. -/
theorem deploy_stack_fst_not_delete (st : AccountState) (c sn a : String)
    (ex : List String) : (deploy_stack st c sn a ex).1.isDelete = false := by
  unfold deploy_stack
  split <;> split <;> rfl

/-- Every event emitted by one deploy attempt is a submission, not a
deletion. -/
theorem deployAccountStep_events (env : Env) (existingBy : List (String × List String))
    (f c sn : String) (o : DeployOut) (a : String)
    (h : ∀ e ∈ o.events, e.isDelete = false) :
    ∀ e ∈ (deployAccountStep env existingBy f c sn o a).events, e.isDelete = false := by
  intro e he
  simp only [deployAccountStep] at he
  split at he
  · split at he <;>
    · simp only [List.mem_append, List.mem_singleton] at he
      rcases he with h3 | h3
      · exact h e h3
      · rw [h3]; exact deploy_stack_fst_not_delete _ _ _ _ _
  · exact h e he

/-- Every event emitted while deploying one manifest entry is a
submission, not a deletion. -/
theorem deployTemplate_events (dir : String) (env : Env)
    (existingBy : List (String × List String)) (o : DeployOut) (tc : TemplateConfig)
    (h : ∀ e ∈ o.events, e.isDelete = false) :
    ∀ e ∈ (deployTemplate dir env existingBy o tc).events, e.isDelete = false := by
  rcases tc with ⟨tf, accs⟩
  cases tf with
  | none => exact h
  | some f =>
    simp only [deployTemplate]
    split
    · exact h
    · split
      · exact foldl_inv (fun o2 => ∀ e ∈ o2.events, e.isDelete = false) _
          (fun o2 a h2 => deployAccountStep_events env existingBy f _ _ o2 a h2) accs o h
      · exact h

/-- Every event in the deploy pass's trace is a submission, not a
deletion. -/
theorem deployPhase_events (dir : String) (env : Env)
    (existingBy : List (String × List String)) (ts : List TemplateConfig) :
    ∀ e ∈ (deployPhase dir env existingBy ts).events, e.isDelete = false := by
  unfold deployPhase
  refine foldl_inv (fun o => ∀ e ∈ o.events, e.isDelete = false) _
    (fun o tc h => deployTemplate_events dir env existingBy o tc h) ts
    { success := [], failed := [], events := [] } ?_
  intro e he
  exact absurd he (List.not_mem_nil e)

/-- In the concatenation of an all-deletion block and a no-deletion
block, every deletion index precedes every non-deletion index. -/
theorem prefix_delete_order (d p : List Event)
    (hdAll : ∀ e ∈ d, e.isDelete = true) (hpAll : ∀ e ∈ p, e.isDelete = false)
    (i j : Nat) (hi : i < (d ++ p).length) (hj : j < (d ++ p).length)
    (hdep : ((d ++ p).get ⟨i, hi⟩).isDelete = false)
    (hdel : ((d ++ p).get ⟨j, hj⟩).isDelete = true) : j < i := by
  simp only [List.get_eq_getElem] at hdep hdel
  have hlen : (d ++ p).length = d.length + p.length := List.length_append d p
  have hjlt : j < d.length := by
    by_contra hge
    push_neg at hge
    have hj2 : j - d.length < p.length := by omega
    have hEq : (d ++ p)[j] = p[j - d.length] := List.getElem_append_right hge
    rw [hEq] at hdel
    have hfalse := hpAll _ (List.getElem_mem hj2)
    rw [hdel] at hfalse
    simp at hfalse
  have hige : d.length ≤ i := by
    by_contra hlt
    push_neg at hlt
    have hEq : (d ++ p)[i] = d[i] := List.getElem_append_left hlt
    rw [hEq] at hdep
    have htrue := hdAll _ (List.getElem_mem hlt)
    rw [hdep] at htrue
    simp at htrue
  omega

/-- Cancellation of a common leading and trailing piece of a string
concatenation. -/
theorem string_append_cancel (s t x y : String)
    (h : s ++ x ++ t = s ++ y ++ t) : x = y := by
  have hd := congrArg String.data h
  simp only [String.data_append, List.append_assoc] at hd
  exact String.ext (List.append_cancel_right (List.append_cancel_left hd))

/-!
Claim theorems.
-/

/-- C1.  The claim says every create/update for a manifest pair (f, a)
is submitted under the name recorded in that account's expected stack
set, STACK_PREFIX-baseName(f)-a.  The code violates it: for the entry
(net.yaml, 111) the expected set records "rvm-provisioned-net-111"
(rvm.py:188, 193) but the deploy loop passes the account-free
_generate_stack_name result to _deploy_stack (rvm.py:235, 242), so
create_stack is submitted as "rvm-provisioned-net". -/
theorem deploy_uses_unsuffixed_name :
    lookupD (collectPhase "d" (fun _ => true)
        [{ template_file := some "net.yaml", accounts := ["111"] }]).account_stacks "111"
      = ["rvm-provisioned-net-111"] ∧
    deploy_all "d" envFresh
      = Except.ok ({ success := ["net.yaml:111"], failed := [], deleted := [] },
          [Event.createSubmitted "111" "rvm-provisioned-net" true]) ∧
    decide (("rvm-provisioned-net" : String) = "rvm-provisioned-net-111") = false :=
  ⟨rfl, rfl, rfl⟩

/-- C2, counterexample.  The claim says a failed stack-listing query
skips all reconciliation for the account.  In the code the failure is
caught inside _get_existing_stacks (rvm.py:76-78) and the partial
(here: empty) result is used: with the listing failing for account 111,
the run still submits a create for it and records a success. -/
theorem query_failure_not_skipped :
    (envQueryFail.acct "111").listFails = true ∧
    deploy_all "d" envQueryFail
      = Except.ok ({ success := ["net.yaml:111"], failed := [], deleted := [] },
          [Event.createSubmitted "111" "rvm-provisioned-net" true]) :=
  ⟨rfl, rfl⟩

/-- C2, amended.  A stack-listing failure is only logged: the run's
outcome is exactly the one obtained from the stacks accumulated before
the failure, so deploy_all is insensitive to the failure flag and the
account is reconciled against the partial (possibly empty) view rather
than skipped. -/
theorem listFails_irrelevant (dir : String) (env : Env) (b : String → Bool) :
    deploy_all dir
      { env with acct := fun a => { env.acct a with listFails := b a } }
      = deploy_all dir env := rfl

/-- C3.  The claim says a second run on the state a completed run
produced (the control plane applying exactly the requested operations)
plans no creates and no deletes.  The code violates it: run one creates
the stack under the account-free name "rvm-provisioned-net", the second
run finds that name absent from the expected set
{"rvm-provisioned-net-111"}, deletes it as an orphan, and then submits
an update against the stale pre-deletion snapshot. -/
theorem second_run_not_converged :
    deploy_all "d" envFresh
      = Except.ok ({ success := ["net.yaml:111"], failed := [], deleted := [] },
          [Event.createSubmitted "111" "rvm-provisioned-net" true]) ∧
    deploy_all "d" envSecond
      = Except.ok ({ success := ["net.yaml:111"], failed := [], deleted := ["rvm-provisioned-net:111"] },
          [Event.deleteSettled "111" "rvm-provisioned-net" true,
           Event.updateSubmitted "111" "rvm-provisioned-net" true]) :=
  ⟨rfl, rfl⟩

/-- C4.  The per-account plan derived from the expected and observed
sets — toDelete as computed at rvm.py:205, toCreate/toUpdate as decided
by the membership test of _deploy_stack (rvm.py:114-138) — is a
partition: the three sets are pairwise disjoint and their union is the
union of expected and observed. -/
theorem plan_partition (expected observed : Finset String) :
    toCreate expected observed ∩ toUpdate expected observed = ∅ ∧
    toCreate expected observed ∩ toDelete expected observed = ∅ ∧
    toUpdate expected observed ∩ toDelete expected observed = ∅ ∧
    toCreate expected observed ∪ toUpdate expected observed ∪ toDelete expected observed
      = expected ∪ observed := by
  refine ⟨?_, ?_, ?_, ?_⟩ <;>
  · ext x
    simp only [toCreate, toUpdate, toDelete, Finset.mem_inter, Finset.mem_union,
      Finset.mem_sdiff, Finset.not_mem_empty, iff_false, not_and]
    tauto

/-- C5.  The claim says accounts of an entry whose template file is
missing are appended to failed as "templateFile:accountId" strings.  The
code appends the bare account ids instead (rvm.py:181,
results["failed"].extend(accounts)): for the missing entry
(missing.yaml, [111, 222]) the failed list is ["111", "222"], while —
as the claim correctly states — no operation is attempted for those
accounts (the trace holds no event for them) and the other entry
proceeds normally. -/
theorem missing_template_failed_format :
    deploy_all "d" envMissing
      = Except.ok ({ success := ["net.yaml:333"], failed := ["111", "222"], deleted := [] },
          [Event.createSubmitted "333" "rvm-provisioned-net" true]) :=
  rfl

/-- C6.  In any completed run, every settled deletion precedes every
create/update submission in the trace — in particular all deletions for
an account settle (delete_stack submits and then blocks on the waiter,
rvm.py:87-92, so a deleteSettled event is a terminal outcome) before any
create or update for that account is submitted. -/
theorem deletes_precede_deploys (dir : String) (env : Env) (res : RunResults)
    (evs : List Event) (h : deploy_all dir env = .ok (res, evs))
    (i j : Nat) (hi : i < evs.length) (hj : j < evs.length)
    (hdep : (evs.get ⟨i, hi⟩).isDelete = false)
    (hdel : (evs.get ⟨j, hj⟩).isDelete = true)
    (_hacct : (evs.get ⟨j, hj⟩).account = (evs.get ⟨i, hi⟩).account) : j < i := by
  rcases henv : env.manifest with _ | _ | ts <;> simp only [deploy_all, henv] at h
  · exact Except.noConfusion h
  · injection h with hpair
    injection hpair with hres hEvs
    subst hEvs
    exact absurd hj (by simp)
  · injection h with hpair
    injection hpair with hres hEvs
    subst hEvs
    exact prefix_delete_order _ _
      (deletePhase_events env.acct (collectPhase dir env.readable ts))
      (deployPhase_events dir env
        (deletePhase env.acct (collectPhase dir env.readable ts)).existingByAccount ts)
      i j hi hj hdep hdel

/-- Witness for C6 at the concrete second-run world: its trace settles
the deletion (index 0) before submitting the update (index 1). -/
theorem deletes_precede_deploys_witness : (0 : Nat) < 1 :=
  deletes_precede_deploys "d" envSecond
    { success := ["net.yaml:111"], failed := [], deleted := ["rvm-provisioned-net:111"] }
    [Event.deleteSettled "111" "rvm-provisioned-net" true,
     Event.updateSubmitted "111" "rvm-provisioned-net" true]
    rfl 1 0 (by decide) (by decide) rfl rfl rfl

/-- C7, counterexample.  The claim says an unparseable manifest is a
soft failure with an empty result.  In the code _read_manifest raises
and deploy_all (rvm.py:151) does not catch it, so the run fails with an
exception instead of returning an empty result. -/
theorem malformed_manifest_raises :
    deploy_all "d" envBadManifest = Except.error "failed to read manifest.json" :=
  rfl

/-- C7, amended.  When the parsed manifest lacks the top-level
"templates" section, deploy_all logs a warning and returns the empty
result without raising (rvm.py:153-155); but when the manifest cannot
be parsed at all, deploy_all raises (the exception propagates to the
caller) rather than producing an empty result. -/
theorem manifest_soft_and_hard_failure (dir : String) (env : Env) :
    (env.manifest = .noTemplates → deploy_all dir env = .ok (emptyResults, [])) ∧
    (env.manifest = .parseError →
      deploy_all dir env = .error "failed to read manifest.json") := by
  constructor <;> · intro h; unfold deploy_all; rw [h]

/-- Witness for the amended C7 theorem at two concrete worlds. -/
theorem manifest_soft_and_hard_failure_witness :
    deploy_all "d" envNoTemplates = Except.ok (emptyResults, []) ∧
    deploy_all "d" envBadManifest = Except.error "failed to read manifest.json" :=
  ⟨(manifest_soft_and_hard_failure "d" envNoTemplates).1 rfl,
   (manifest_soft_and_hard_failure "d" envBadManifest).2 rfl⟩

/-- C8, counterexample.  The claim says distinct (templateRef,
accountId) pairs always yield distinct stack names.  They do not: the
name only embeds the base name (final path component, extension
stripped), so "network/net.yaml" and "net.json" collide for the same
account. -/
theorem stack_name_not_collision_free :
    stackNameFor "network/net.yaml" "111" = stackNameFor "net.json" "111" ∧
    decide (("network/net.yaml" : String) = "net.json") = false :=
  ⟨rfl, rfl⟩

/-- C8, amended.  The naming function is deterministic (a pure function
of its arguments), but it is collision-free only up to the base name:
for a fixed account, two template references map to the same stack name
exactly when their base names agree, so references differing only in
directory or in extension collide. -/
theorem stack_name_deterministic_and_base_injective :
    (∀ f a, stackNameFor f a = stackNameFor f a) ∧
    (∀ f1 f2 a, stackNameFor f1 a = stackNameFor f2 a ↔
      splitextRoot (basename f1) = splitextRoot (basename f2)) := by
  refine ⟨fun f a => rfl, fun f1 f2 a => ⟨fun h => ?_, fun h => ?_⟩⟩
  · exact string_append_cancel (stackPfx ++ "-") ("-" ++ a) _ _ (by
      simpa [stackNameFor, generate_stack_name, String.ext_iff, String.data_append,
        List.append_assoc] using congrArg String.data h)
  · simp [stackNameFor, generate_stack_name, h]

/-- C9.  _deploy_stack returns True on every non-raising path
(rvm.py:126, 138): whenever the embedded deploy_stack yields a
non-exceptional Boolean, that Boolean is true, so the caller's
failed-append after a False return (rvm.py:246-247) is unreachable. -/
theorem deploy_stack_ok_is_true (st : AccountState) (c sn a : String)
    (ex : List String) (b : Bool)
    (h : (deploy_stack st c sn a ex).2 = .ok b) : b = true := by
  unfold deploy_stack at h
  split at h <;> split at h <;> simp_all

/-- Witness for C9 at a concrete fresh account. -/
theorem deploy_stack_ok_is_true_witness : (true : Bool) = true :=
  deploy_stack_ok_is_true freshAcct "template body" "rvm-provisioned-net" "111" [] true rfl

/-- C10.  lambda_handler reads only event["Records"][0] (rvm.py:275):
the response for a record list is the response for its head alone, so
trailing records are silently ignored; and an absent or empty Records
list hits the blanket handler and yields statusCode 500 with an error
body (rvm.py:299-301). -/
theorem handler_first_record_only (ctx : HandlerCtx) :
    (∀ r rest, lambda_handler ctx { records := some (r :: rest) }
      = lambda_handler ctx { records := some [r] }) ∧
    lambda_handler ctx { records := none }
      = { statusCode := 500, body := .errorMsg "KeyError: Records" } ∧
    lambda_handler ctx { records := some [] }
      = { statusCode := 500, body := .errorMsg "IndexError: list index out of range" } :=
  ⟨fun _ _ => rfl, rfl, rfl⟩

end Rvm
